import Mathlib

/-!
Verification development for the PNCP procurement-search pipeline
(`lib/pncpApi.ts` and `app/api/buscar-licitacoes/route.tsx`).

The TypeScript source is shallowly embedded below:
* JavaScript strings are Lean `String`s; the only string operations the
  code uses (`toLowerCase`, `includes`, `replace` with a string pattern,
  `trim`, `length`) are defined character-wise so that the kernel can
  evaluate them.  `toLowerCase` is modelled on the ASCII range
  (`Char.toLower`); every concrete string the theorems evaluate is
  unaffected by the difference on non-ASCII letters, and all comparisons
  in the code lower-case both sides with the same function.
* JavaScript numbers holding currency values are `ℚ`; page counters and
  HTTP statuses are `Int`.  Truthiness of a number is `≠ 0`, of a string
  is non-emptiness, of an optional value is `Option.isSome` combined with
  the value's own truthiness, exactly where the source relies on it.
* ISO date strings are abstracted to day numbers (`Int`): the library
  calls `parseISO`, `differenceInDays`, `subDays` and `format ·
  'yyyyMMdd'` only, which on pure calendar dates are the abstraction's
  subtraction and identity; `format` is injective, so "which date is
  sent upstream" is faithfully represented by the day number.
* The `axios` call inside the page loop is an oracle
  `Upstream : RequestParams → Except ApiErrorInput PncpPageRaw`;
  `.error` models a thrown transport / non-2xx error, `.ok` a 2xx
  response whose body may still be malformed (`data` field missing or
  not an array, modelled by `Option`).
-/

/-! ## JavaScript string primitives -/

/-- `String.prototype.toLowerCase`, restricted to ASCII letters. -/
def jsToLower (s : String) : String := ⟨s.data.map Char.toLower⟩

/-- Does `pat` occur (contiguously) in `l`?  Character-list core of
`String.prototype.includes`. -/
def listIsSub (pat : List Char) : List Char → Bool
  | [] => pat.isEmpty
  | c :: rest => (decide (pat = List.take pat.length (c :: rest))) || listIsSub pat rest

/-- `s.includes(sub)` for JavaScript strings. -/
def jsIncludes (s sub : String) : Bool := listIsSub sub.data s.data

/-- Remove the first occurrence of `pat` from `l` (character-list core of
`String.prototype.replace(pat, '')` for a non-empty string pattern). -/
def removeFirstOcc (pat : List Char) : List Char → List Char
  | [] => []
  | c :: rest =>
    if pat = List.take pat.length (c :: rest) then List.drop pat.length (c :: rest)
    else c :: removeFirstOcc pat rest

/-- `s.replace(pat, '')` for a non-empty string pattern `pat`. -/
def jsReplaceOnce (s pat : String) : String := ⟨removeFirstOcc pat.data s.data⟩

/-- `String.prototype.trim`. -/
def jsTrim (s : String) : String :=
  ⟨((s.data.dropWhile Char.isWhitespace).reverse.dropWhile Char.isWhitespace).reverse⟩

/-! ## Data model (`lib/types.ts` shapes, restricted to the fields the core reads) -/

/-- A procurement record from the PNCP API.  The pipeline only ever reads
`objetoCompra`; all other fields are carried through untouched. -/
structure PncpLicitacao where
  objetoCompra : Option String
deriving DecidableEq, Repr

/-- A procurement record as consumed by the route handler
(`ComprasLicitacao` in the source); the handler reads the object
description and the two value fields. -/
structure ComprasLicitacao where
  objetoCompra : Option String
  valorTotalEstimado : Option ℚ
  valorTotalHomologado : Option ℚ
deriving DecidableEq, Repr

/-- The wire shape of one upstream page as the fetch loop inspects it:
`data` is `none` when the response body's `data` field is missing or not
an array, `totalPaginas` is `none` when absent. -/
structure PncpPageRaw where
  data : Option (List PncpLicitacao)
  totalRegistros : Int
  totalPaginas : Option Int
deriving DecidableEq, Repr

/-- `PncpApiResponse<PncpLicitacao>` as built for the success envelope. -/
structure PncpApiResponse where
  data : List PncpLicitacao
  totalRegistros : Int
  totalPaginas : Int
  numeroPagina : Int
  paginasRestantes : Int
  empty : Bool
deriving DecidableEq, Repr

/-- `ApiResponse<T>`: the uniform success-or-error envelope. -/
structure ApiResponse (α : Type) where
  success : Bool
  data : Option α
  error : Option String
  status : Int

/-- The body attached to an HTTP error response, as `handleApiError`
reads it (`{ error?: string; message?: string }`). -/
structure AxiosResponseData where
  error : Option String
  message : Option String
deriving DecidableEq, Repr

/-- The HTTP response attached to an axios error, when one exists. -/
structure AxiosResponse where
  status : Int
  data : Option AxiosResponseData
deriving DecidableEq, Repr

/-- The `unknown` value caught by an error handler: an axios error
(which always carries a `message` string and possibly a response), a
plain JavaScript `Error`, or anything else. -/
inductive ApiErrorInput where
  | axiosErr (response : Option AxiosResponse) (message : String)
  | jsError (message : String)
  | unknownErr
deriving DecidableEq, Repr

/-! ## `handleApiError` (lib/pncpApi.ts lines 24-55) -/

/-- `handleApiError(error, defaultMessage)`: normalize any failure into a
`{ success: false, error, status }` envelope.  Console logging in the
source has no effect on the returned value and is omitted. -/
def handleApiError (error : ApiErrorInput) (defaultMessage : String) : ApiResponse Empty :=
  match error with
  | .axiosErr response msg =>
    -- status = axiosError.response?.status || 500  (JS: 0 is falsy)
    let status : Int :=
      match response with
      | some r => if r.status = 0 then 500 else r.status
      | none => 500
    -- const responseError = data?.error || data?.message
    let responseError : Option String :=
      match response with
      | some r =>
        match r.data with
        | some d =>
          match d.error with
          | some e => if e.isEmpty then d.message else some e
          | none => d.message
        | none => none
      | none => none
    -- message = typeof responseError === 'string' ? responseError
    --         : axiosError.message || defaultMessage
    let message : String :=
      match responseError with
      | some s => s
      | none => if msg.isEmpty then defaultMessage else msg
    let message : String :=
      if status = 404 then
        "Recurso não encontrado na API. Verifique o endpoint ou parâmetros."
      else if status = 429 then
        "Limite de requisições excedido na API. Tente novamente mais tarde."
      else message
    { success := false, data := none, error := some message, status := status }
  | .jsError m => { success := false, data := none, error := some m, status := 500 }
  | .unknownErr => { success := false, data := none, error := some defaultMessage, status := 500 }

/-! ## Modality resolver (lib/pncpApi.ts lines 57-69) -/

/-- The static name-to-code table inside `getPncpModalidadeCodigo`. -/
def modalidadesMap : List (String × Int) :=
  [("leilão eletrônico", 1), ("diálogo competitivo", 2), ("concurso", 3),
   ("concorrência eletrônica", 4), ("concorrência presencial", 5), ("pregão eletrônico", 6),
   ("pregão presencial", 7), ("dispensa de licitação", 8), ("inexigibilidade de licitação", 9),
   ("manifestação de interesse", 10), ("pré-qualificação", 11), ("credenciamento", 12),
   ("leilão presencial", 13)]

/-- `getPncpModalidadeCodigo(modalidadeNome)`: lower-case, remove the
first occurrence of " de licitação", trim, then look the result up. -/
def getPncpModalidadeCodigo (modalidadeNome : String) : Option Int :=
  let normalizedName := jsTrim (jsReplaceOnce (jsToLower modalidadeNome) " de licitação")
  modalidadesMap.lookup normalizedName

/-- `ALL_MODALITY_CODES`. -/
def ALL_MODALITY_CODES : List Int := [1, 2, 3, 4, 5, 6, 7, 8, 9, 10, 11, 12, 13]

/-- The modality-code list used by `buscarLicitacoesPNCP`: resolve the
supplied names (dropping unmapped ones), falling back to all 13 codes
when no name was supplied. -/
def modalidadesCodigos (modalidades : List String) : List Int :=
  if modalidades.length > 0 then modalidades.filterMap getPncpModalidadeCodigo
  else ALL_MODALITY_CODES

/-! ## Query-parameter construction (lib/pncpApi.ts lines 80-104) -/

/-- The structured filters the pipeline receives (`PncpApiFilters`).
Date strings are abstracted to parsed day numbers (see file header). -/
structure PncpApiFilters where
  palavrasChave : List String
  valorMin : Option ℚ
  valorMax : Option ℚ
  estado : Option String
  modalidades : List String
  dataInicial : Option Int
  dataFinal : Option Int
  blacklist : List String
deriving DecidableEq, Repr

/-- The `baseParams` record built once per call. -/
structure BaseParams where
  tamanhoPagina : Int
  dataInicial : Option Int
  dataFinal : Option Int
  uf : Option String
  valorMinimo : Option ℚ
  valorMaximo : Option ℚ
deriving DecidableEq, Repr

/-- The query parameters of one page request
(`{ ...baseParams, codigoModalidadeContratacao, pagina }`). -/
structure RequestParams where
  tamanhoPagina : Int
  dataInicial : Option Int
  dataFinal : Option Int
  uf : Option String
  valorMinimo : Option ℚ
  valorMaximo : Option ℚ
  codigoModalidadeContratacao : Int
  pagina : Int
deriving DecidableEq, Repr

/-- Build `baseParams` from the filters: clamp a date window longer than
365 days to exactly 365 days ending at the final date, then attach the
truthy optional filters (JS truthiness: `''` and `0` are falsy). -/
def buildBaseParams (filters : PncpApiFilters) : BaseParams :=
  let dates : Option Int × Option Int :=
    match filters.dataInicial, filters.dataFinal with
    | some di, some df =>
      let di := if df - di > 365 then df - 365 else di
      (some di, some df)
    | some di, none => (some di, none)
    | none, some df => (none, some df)
    | none, none => (none, none)
  { tamanhoPagina := 50
    dataInicial := dates.1
    dataFinal := dates.2
    uf := match filters.estado with
      | some e => if e.isEmpty then none else some e
      | none => none
    valorMinimo := match filters.valorMin with
      | some v => if v = 0 then none else some v
      | none => none
    valorMaximo := match filters.valorMax with
      | some v => if v = 0 then none else some v
      | none => none }

/-- The parameters of the request for `pagina` of modality `code`. -/
def mkRequestParams (base : BaseParams) (code page : Int) : RequestParams :=
  { tamanhoPagina := base.tamanhoPagina
    dataInicial := base.dataInicial
    dataFinal := base.dataFinal
    uf := base.uf
    valorMinimo := base.valorMinimo
    valorMaximo := base.valorMaximo
    codigoModalidadeContratacao := code
    pagina := page }

/-! ## Paginated fetcher (lib/pncpApi.ts lines 106-134) -/

/-- The external PNCP API as an oracle: the outcome of
`pncpApi.get(endpoint, { params })` for given query parameters.
`.error` is a thrown transport / non-2xx error. -/
def Upstream : Type := RequestParams → Except ApiErrorInput PncpPageRaw

/-- The `while (currentPage <= totalPages)` loop from its second
iteration on: `totalPages` is fixed after page 1, records of each
well-formed page are appended, a malformed body or a thrown error stops
the loop keeping what was collected.  (At `currentPage ≥ 2` the two
`currentPage === 1` branches of the source are unreachable.) -/
def fetchLoop (upstream : Upstream) (base : BaseParams) (code totalPages : Int)
    (currentPage : Int) (acc : List PncpLicitacao) : List PncpLicitacao :=
  if currentPage ≤ totalPages then
    match upstream (mkRequestParams base code currentPage) with
    | .error e =>
      -- handleApiError is called for its logging only; its value is dropped
      let _ := handleApiError e ""
      acc
    | .ok response =>
      match response.data with
      | some recs => fetchLoop upstream base code totalPages (currentPage + 1) (acc ++ recs)
      | none => acc
  else acc
termination_by (totalPages + 1 - currentPage).toNat
decreasing_by
  omega

/-- One modality's whole pagination (`for` body): request page 1; on a
thrown error or malformed body stop with nothing (error) or with the
empty loop result (malformed); otherwise keep page 1's records and, when
page 1 reports a positive `totalPaginas`, continue from page 2 up to it. -/
def fetchModalidade (upstream : Upstream) (base : BaseParams) (code : Int) :
    List PncpLicitacao :=
  match upstream (mkRequestParams base code 1) with
  | .error e =>
    let _ := handleApiError e ""
    []
  | .ok response =>
    match response.data with
    | none => []
    | some recs =>
      if response.totalPaginas.getD 0 > 0 then
        fetchLoop upstream base code (response.totalPaginas.getD 0) 2 recs
      else recs

/-! ## Final keyword / blacklist filter (lib/pncpApi.ts lines 138-146) -/

/-- `temKeyword`: the record's lower-cased description contains one of
the lower-cased keywords, or there are no keywords. -/
def temKeyword (palavrasChave : List String) (licitacao : PncpLicitacao) : Bool :=
  let lowercasedKeywords := palavrasChave.map jsToLower
  let objeto := jsToLower (licitacao.objetoCompra.getD "")
  lowercasedKeywords.isEmpty || lowercasedKeywords.any (fun kw => jsIncludes objeto kw)

/-- `temBlacklist`: the blacklist is non-empty and the record's
lower-cased description contains one of its lower-cased terms. -/
def temBlacklist (blacklist : List String) (licitacao : PncpLicitacao) : Bool :=
  let lowercasedBlacklist := blacklist.map jsToLower
  let objeto := jsToLower (licitacao.objetoCompra.getD "")
  (!lowercasedBlacklist.isEmpty) && lowercasedBlacklist.any (fun bl => jsIncludes objeto bl)

/-- The predicate of `allLicitacoes.filter(...)`. -/
def finalFilter (filters : PncpApiFilters) (licitacao : PncpLicitacao) : Bool :=
  temKeyword filters.palavrasChave licitacao && !temBlacklist filters.blacklist licitacao

/-! ## `buscarLicitacoesPNCP` (lib/pncpApi.ts lines 71-163) -/

/-- The whole fetch pipeline: build the parameters, walk every resolved
modality code's pages, filter the aggregate, and wrap it in a success
envelope.  (The `await delay(200)` between modalities only spends time;
upstream failures are caught inside the loop, so the outer `catch` has
no reachable trigger in this model.) -/
def buscarLicitacoesPNCP (filters : PncpApiFilters) (upstream : Upstream) :
    ApiResponse PncpApiResponse :=
  let baseParams := buildBaseParams filters
  let allLicitacoes :=
    (modalidadesCodigos filters.modalidades).flatMap
      (fun modalidadeCode => fetchModalidade upstream baseParams modalidadeCode)
  let finalResults := allLicitacoes.filter (finalFilter filters)
  { success := true
    data := some
      { data := finalResults
        totalRegistros := (finalResults.length : Int)
        totalPaginas := 1
        numeroPagina := 1
        paginasRestantes := 0
        empty := finalResults.length = 0 }
    error := none
    status := 200 }

/-! ## Route handler filter stage (app/api/buscar-licitacoes/route.tsx lines 56-81) -/

/-- The part of the extracted Filter Set the route's own filter reads
(`const { palavrasChave, sinonimos, valorMin, valorMax } = extractedInfo`). -/
structure ExtractedFilters where
  palavrasChave : List String
  sinonimos : List (List String)
  valorMin : Option ℚ
  valorMax : Option ℚ
deriving DecidableEq, Repr

/-- `searchTerms`: keywords plus flattened synonym groups, lower-cased,
with empty strings dropped. -/
def searchTerms (info : ExtractedFilters) : List String :=
  ((info.palavrasChave.map jsToLower) ++ (info.sinonimos.flatten.map jsToLower)).filter
    (fun term => decide (term.length > 0))

/-- `objetoOk`: the term list is empty or one term occurs in the
record's lower-cased object description. -/
def routeObjetoOk (terms : List String) (lic : ComprasLicitacao) : Bool :=
  let objetoLicitacao := jsToLower (lic.objetoCompra.getD "")
  terms.isEmpty || terms.any (fun term => jsIncludes objetoLicitacao term)

/-- `valorParaComparar = Math.max(valorEstimado, valorHomologado)` with
null values taken as 0. -/
def comparisonValue (lic : ComprasLicitacao) : ℚ :=
  max (lic.valorTotalEstimado.getD 0) (lic.valorTotalHomologado.getD 0)

/-- `valorMinOk && valorMaxOk`: both inclusive bounds, a null bound
imposing no constraint. -/
def routeValorOk (valorMin valorMax : Option ℚ) (lic : ComprasLicitacao) : Bool :=
  let valorParaComparar := comparisonValue lic
  let valorMinOk : Bool := match valorMin with
    | none => true
    | some m => decide (valorParaComparar ≥ m)
  let valorMaxOk : Bool := match valorMax with
    | none => true
    | some m => decide (valorParaComparar ≤ m)
  valorMinOk && valorMaxOk

/-- The body of `licitacoesEncontradas.filter(lic => ...)`. -/
def routeRecordFilter (info : ExtractedFilters) (lic : ComprasLicitacao) : Bool :=
  if !(routeObjetoOk (searchTerms info) lic) then false
  else if !(routeValorOk info.valorMin info.valorMax lic) then false
  else true

/-- `licitacoesFiltradas`. -/
def licitacoesFiltradas (info : ExtractedFilters) (licitacoesEncontradas : List ComprasLicitacao) :
    List ComprasLicitacao :=
  licitacoesEncontradas.filter (routeRecordFilter info)

/-- The page budget that page 1 of a modality fixes for the whole loop:
a failed or malformed first page allows no further request, a positive
reported `totalPaginas` allows pages up to that count, anything else
stops after page 1.  (Specification-side bound used to state that the
fetcher never requests a page beyond what page 1 reported.) -/
def reportedPages (r : Except ApiErrorInput PncpPageRaw) : Int :=
  match r with
  | .error _ => 1
  | .ok page =>
    match page.data with
    | none => 1
    | some _ => if page.totalPaginas.getD 0 > 0 then page.totalPaginas.getD 0 else 1

/-! ## Theorems -/

/-- Helper: the `length == 0` test used for the `empty` flag agrees with
list emptiness. -/
theorem decide_length_eq_zero_eq_isEmpty (l : List PncpLicitacao) :
    (decide (l.length = 0) : Bool) = l.isEmpty := by
  cases l <;> rfl

/-- Helper: the page loop's result only depends on the oracle's answers
at the pages of the fixed budget actually visited. -/
theorem fetchLoop_congr (u u' : Upstream) (base : BaseParams) (code tp : Int) :
    ∀ (n : Nat) (p : Int) (acc : List PncpLicitacao),
      (tp + 1 - p).toNat = n →
      (∀ q, p ≤ q → q ≤ tp →
        u (mkRequestParams base code q) = u' (mkRequestParams base code q)) →
      fetchLoop u base code tp p acc = fetchLoop u' base code tp p acc := by
  intro n
  induction n with
  | zero =>
    intro p acc hn hag
    have hgt : ¬ (p ≤ tp) := by omega
    rw [fetchLoop, fetchLoop]
    simp [hgt]
  | succ k ih =>
    intro p acc hn hag
    rw [fetchLoop, fetchLoop]
    by_cases hle : p ≤ tp
    · simp only [if_pos hle]
      rw [hag p le_rfl hle]
      cases hu : u' (mkRequestParams base code p) with
      | error e => rfl
      | ok response =>
        show (match response.data with
          | some recs => fetchLoop u base code tp (p + 1) (acc ++ recs)
          | none => acc) =
          (match response.data with
          | some recs => fetchLoop u' base code tp (p + 1) (acc ++ recs)
          | none => acc)
        cases response.data with
        | none => rfl
        | some recs =>
          exact ih (p + 1) (acc ++ recs) (by omega)
            (fun q hq1 hq2 => hag q (by omega) hq2)
    · simp [hle]

/-- C2: the claim says every key of the static modality table resolves
to its own code, naming "dispensa de licitação" ↦ 8 and
"inexigibilidade de licitação" ↦ 9.  The normalization removes
" de licitação" before the lookup, so those two table entries are
unreachable and both names are silently dropped, contradicting the
code's own table; the remaining parts of the claim (empty list ↦ all 13
codes, known names ↦ their codes, unknown names dropped) do hold. -/
theorem C2_resolver_drops_de_licitacao_keys :
    getPncpModalidadeCodigo "dispensa de licitação" = none ∧
    modalidadesMap.lookup "dispensa de licitação" = some 8 ∧
    getPncpModalidadeCodigo "inexigibilidade de licitação" = none ∧
    modalidadesMap.lookup "inexigibilidade de licitação" = some 9 ∧
    modalidadesCodigos [] = ALL_MODALITY_CODES ∧
    modalidadesCodigos ["pregão eletrônico", "leilão eletrônico"] = [6, 1] ∧
    modalidadesCodigos ["pregão eletrônico", "nome inexistente", "leilão eletrônico"] = [6, 1] := by
  decide

/-- C6: when both date bounds are present and the span exceeds 365 days,
the start date sent upstream is advanced to exactly 365 days before the
final date; spans of at most 365 days pass through unchanged. -/
theorem C6_date_window_clamp (filters : PncpApiFilters) (di df : Int)
    (hdi : filters.dataInicial = some di) (hdf : filters.dataFinal = some df) :
    (df - di > 365 →
      (buildBaseParams filters).dataInicial = some (df - 365) ∧
      (buildBaseParams filters).dataFinal = some df) ∧
    (df - di ≤ 365 →
      (buildBaseParams filters).dataInicial = some di ∧
      (buildBaseParams filters).dataFinal = some df) := by
  constructor
  · intro h
    simp [buildBaseParams, hdi, hdf, h]
  · intro h
    have hnot : ¬ (df - di > 365) := by omega
    simp [buildBaseParams, hdi, hdf, hnot]

/-- Witness for C6: a 400-day range (day 0 to day 400) is clamped to the
365-day window ending at day 400. -/
theorem C6_date_window_clamp_witness :
    (buildBaseParams ⟨[], none, none, none, [], some 0, some 400, []⟩).dataInicial =
      some (400 - 365) ∧
    (buildBaseParams ⟨[], none, none, none, [], some 0, some 400, []⟩).dataFinal = some 400 :=
  (C6_date_window_clamp ⟨[], none, none, none, [], some 0, some 400, []⟩ 0 400 rfl rfl).1
    (by decide)

/-- C9 counterexample: with `valorMin = 0` (non-null), no `valorMinimo`
query parameter is produced, because the source guards the parameter
with JavaScript truthiness (`if (filters.valorMin)`), not a null check. -/
theorem C9_valorMin_zero_counterexample :
    (⟨[], some 0, none, none, [], none, none, []⟩ : PncpApiFilters).valorMin = some 0 ∧
    (buildBaseParams ⟨[], some 0, none, none, [], none, none, []⟩).valorMinimo = none ∧
    (mkRequestParams (buildBaseParams ⟨[], some 0, none, none, [], none, none, []⟩) 6 1).valorMinimo
      = none := by
  decide

/-- C9 (amended): every page request carries `valorMinimo` equal to
`valorMin` whenever `valorMin` is non-null and non-zero, and `valorMaximo`
equal to `valorMax` whenever `valorMax` is non-null and non-zero; a null
or zero bound contributes no parameter. -/
theorem C9_value_bounds_in_params (filters : PncpApiFilters) (code page : Int) :
    (mkRequestParams (buildBaseParams filters) code page).valorMinimo =
      (buildBaseParams filters).valorMinimo ∧
    (mkRequestParams (buildBaseParams filters) code page).valorMaximo =
      (buildBaseParams filters).valorMaximo ∧
    (filters.valorMin = none → (buildBaseParams filters).valorMinimo = none) ∧
    (filters.valorMin = some 0 → (buildBaseParams filters).valorMinimo = none) ∧
    (∀ v : ℚ, filters.valorMin = some v → v ≠ 0 →
      (buildBaseParams filters).valorMinimo = some v) ∧
    (filters.valorMax = none → (buildBaseParams filters).valorMaximo = none) ∧
    (filters.valorMax = some 0 → (buildBaseParams filters).valorMaximo = none) ∧
    (∀ v : ℚ, filters.valorMax = some v → v ≠ 0 →
      (buildBaseParams filters).valorMaximo = some v) := by
  refine ⟨rfl, rfl, ?_, ?_, ?_, ?_, ?_, ?_⟩
  · intro h; simp [buildBaseParams, h]
  · intro h; simp [buildBaseParams, h]
  · intro v h hv; simp [buildBaseParams, h, hv]
  · intro h; simp [buildBaseParams, h]
  · intro h; simp [buildBaseParams, h]
  · intro v h hv; simp [buildBaseParams, h, hv]

/-- Witness for C9 (amended): a non-zero minimum of 100 000 is sent, a
zero maximum is dropped. -/
theorem C9_value_bounds_in_params_witness :
    (buildBaseParams ⟨[], some 100000, some 0, none, [], none, none, []⟩).valorMinimo =
      some 100000 ∧
    (buildBaseParams ⟨[], some 100000, some 0, none, [], none, none, []⟩).valorMaximo = none :=
  ⟨(C9_value_bounds_in_params ⟨[], some 100000, some 0, none, [], none, none, []⟩ 6 1).2.2.2.2.1
      100000 rfl (by decide),
   (C9_value_bounds_in_params ⟨[], some 100000, some 0, none, [], none, none, []⟩ 6 1).2.2.2.2.2.2.1
      rfl⟩

/-- C3: the numeric-range stage compares
`max(estimatedValue ?? 0, homologatedValue ?? 0)` against both optional
bounds inclusively, a null bound imposing no constraint, and the whole
record filter keeps a record exactly when it passes both the inclusion
stage and the numeric-range stage. -/
theorem C3_numeric_range (info : ExtractedFilters) (lic : ComprasLicitacao) :
    comparisonValue lic =
      max (lic.valorTotalEstimado.getD 0) (lic.valorTotalHomologado.getD 0) ∧
    routeRecordFilter info lic =
      (routeObjetoOk (searchTerms info) lic && routeValorOk info.valorMin info.valorMax lic) ∧
    (routeValorOk info.valorMin info.valorMax lic = true ↔
      ((∀ m, info.valorMin = some m → m ≤ comparisonValue lic) ∧
       (∀ M, info.valorMax = some M → comparisonValue lic ≤ M))) := by
  refine ⟨rfl, ?_, ?_⟩
  · cases hobj : routeObjetoOk (searchTerms info) lic <;>
      cases hval : routeValorOk info.valorMin info.valorMax lic <;>
        simp [routeRecordFilter, hobj, hval]
  · cases hmin : info.valorMin <;> cases hmax : info.valorMax <;>
      simp [routeValorOk, hmin, hmax, ge_iff_le]

/-- Witness for C3: a record whose comparison value is exactly the
minimum bound 100 000 passes the range stage (inclusive boundary). -/
theorem C3_numeric_range_witness :
    routeValorOk (some 100000) none ⟨some "obra", some 100000, none⟩ = true :=
  (C3_numeric_range ⟨[], [], some 100000, none⟩ ⟨some "obra", some 100000, none⟩).2.2.mpr
    ⟨fun m hm => by
        have h := Option.some.inj hm
        subst h
        decide,
     fun M hM => by cases hM⟩

/-- C4: a non-empty blacklist with one term occurring (case-insensitively)
in the record's object description excludes the record from the final
result regardless of keywords, and an empty blacklist excludes nothing
(the filter degenerates to the keyword test). -/
theorem C4_blacklist_exclusion (filters : PncpApiFilters) (upstream : Upstream)
    (lic : PncpLicitacao) :
    (filters.blacklist ≠ [] →
      (∃ b ∈ filters.blacklist,
        jsIncludes (jsToLower (lic.objetoCompra.getD "")) (jsToLower b) = true) →
      finalFilter filters lic = false ∧
        ∀ env, (buscarLicitacoesPNCP filters upstream).data = some env → lic ∉ env.data) ∧
    (filters.blacklist = [] →
      finalFilter filters lic = temKeyword filters.palavrasChave lic) := by
  constructor
  · intro hne hex
    obtain ⟨b, hb, hinc⟩ := hex
    have htb : temBlacklist filters.blacklist lic = true := by
      simp only [temBlacklist, Bool.and_eq_true, Bool.not_eq_true', List.isEmpty_eq_false,
        List.any_eq_true]
      constructor
      · simp only [ne_eq, List.map_eq_nil_iff]
        exact hne
      · exact ⟨jsToLower b, List.mem_map_of_mem jsToLower hb, hinc⟩
    have hff : finalFilter filters lic = false := by
      simp [finalFilter, htb]
    refine ⟨hff, ?_⟩
    intro env henv hmem
    have henv2 : env =
        { data := (((modalidadesCodigos filters.modalidades).flatMap
            (fun c => fetchModalidade upstream (buildBaseParams filters) c)).filter
              (finalFilter filters))
          totalRegistros := ((((modalidadesCodigos filters.modalidades).flatMap
            (fun c => fetchModalidade upstream (buildBaseParams filters) c)).filter
              (finalFilter filters)).length : Int)
          totalPaginas := 1
          numeroPagina := 1
          paginasRestantes := 0
          empty := decide ((((modalidadesCodigos filters.modalidades).flatMap
            (fun c => fetchModalidade upstream (buildBaseParams filters) c)).filter
              (finalFilter filters)).length = 0) } := by
      have := henv
      simp only [buscarLicitacoesPNCP, Option.some.injEq] at this
      exact this.symm
    rw [henv2] at hmem
    have := (List.mem_filter.mp hmem).2
    rw [hff] at this
    exact Bool.false_ne_true this
  · intro h
    simp [finalFilter, temBlacklist, h]

/-- Witness for C4: the blacklist term "urgente" occurs in
"Compra URGENTE de material", so the record is dropped even though the
keyword "compra" matches. -/
theorem C4_blacklist_exclusion_witness :
    finalFilter ⟨["compra"], none, none, none, [], none, none, ["urgente"]⟩
      ⟨some "Compra URGENTE de material"⟩ = false :=
  ((C4_blacklist_exclusion ⟨["compra"], none, none, none, [], none, none, ["urgente"]⟩
      (fun _ => Except.error ApiErrorInput.unknownErr) ⟨some "Compra URGENTE de material"⟩).1
    (by decide) ⟨"urgente", by decide, by decide⟩).1

/-- C5 counterexample: with keywords ["zzz"] and the synonym group [""],
the claim's combined term set is ["zzz", ""] — non-empty, and the empty
term is a substring of every description — so the claim's iff says the
record passes inclusion; the code drops empty terms before matching and
rejects the record. -/
theorem C5_empty_term_counterexample :
    ((⟨["zzz"], [[""]], none, none⟩ : ExtractedFilters).palavrasChave.map jsToLower ++
      (⟨["zzz"], [[""]], none, none⟩ : ExtractedFilters).sinonimos.flatten.map jsToLower)
      = ["zzz", ""] ∧
    jsIncludes (jsToLower ((some "abc" : Option String).getD "")) "" = true ∧
    routeObjetoOk (searchTerms ⟨["zzz"], [[""]], none, none⟩) ⟨some "abc", none, none⟩ = false ∧
    routeRecordFilter ⟨["zzz"], [[""]], none, none⟩ ⟨some "abc", none, none⟩ = false := by
  decide

/-- C5 (amended): the inclusion stage passes a record exactly when the
combined term set (keywords plus synonym-group members, lower-cased,
with empty strings discarded) is empty or one of its terms occurs in the
lower-cased object description; with no keywords and no synonyms every
record passes. -/
theorem C5_inclusion (info : ExtractedFilters) (lic : ComprasLicitacao) :
    searchTerms info =
      ((info.palavrasChave.map jsToLower) ++ (info.sinonimos.flatten.map jsToLower)).filter
        (fun term => decide (term.length > 0)) ∧
    (routeObjetoOk (searchTerms info) lic = true ↔
      (searchTerms info = [] ∨
        ∃ t ∈ searchTerms info,
          jsIncludes (jsToLower (lic.objetoCompra.getD "")) t = true)) ∧
    (info.palavrasChave = [] → info.sinonimos = [] →
      routeObjetoOk (searchTerms info) lic = true) := by
  refine ⟨rfl, ?_, ?_⟩
  · simp [routeObjetoOk, List.isEmpty_iff, List.any_eq_true]
  · intro h1 h2
    simp [routeObjetoOk, searchTerms, h1, h2]

/-- Witness for C5 (amended): with an empty keyword set and empty
synonym set, an arbitrary record passes inclusion. -/
theorem C5_inclusion_witness :
    routeObjetoOk (searchTerms ⟨[], [], none, none⟩) ⟨some "qualquer objeto", none, none⟩ = true :=
  (C5_inclusion ⟨[], [], none, none⟩ ⟨some "qualquer objeto", none, none⟩).2.2 rfl rfl

/-- C7 counterexample: three divergences from the claim.  (1) An HTTP
error whose body has no error/message field is reported with the axios
transport message, not the caller's default message.  (2) A response
with status 0 does not have "its status code used": the falsy-guarded
fallback turns it into 500.  (3) A present-but-empty error field is not
surfaced; the code falls through to the transport message. -/
theorem C7_classifier_counterexample :
    ((handleApiError
        (.axiosErr (some ⟨500, none⟩) "Request failed with status code 500") "mensagem padrão").error
      = some "Request failed with status code 500" ∧
     (handleApiError
        (.axiosErr (some ⟨500, none⟩) "Request failed with status code 500") "mensagem padrão").error
      ≠ some "mensagem padrão") ∧
    (handleApiError (.axiosErr (some ⟨0, none⟩) "Network Error") "mensagem padrão").status = 500 ∧
    (handleApiError (.axiosErr (some ⟨418, some ⟨some "", none⟩⟩) "boom") "mensagem padrão").error
      = some "boom" := by
  decide

/-- C7 (amended): the classifier always returns a
`success = false` envelope and never throws; an attached HTTP response
with non-zero status has that status used (zero status falls back to
500), a 404 is rewritten to the fixed resource-not-found message and a
429 to the fixed rate-limited message; other statuses surface the
upstream error field when present and non-empty, else the upstream
message field when present, else the axios error's own message when
non-empty, else the default message; errors without a response and
non-axios errors yield status 500 with the underlying message. -/
theorem C7_classifier (dm : String) :
    (∀ e, (handleApiError e dm).success = false ∧ (handleApiError e dm).data = none) ∧
    (∀ (st : Int) (d : Option AxiosResponseData) (m : String),
      st ≠ 0 → (handleApiError (.axiosErr (some ⟨st, d⟩) m) dm).status = st) ∧
    (∀ (d : Option AxiosResponseData) (m : String),
      handleApiError (.axiosErr (some ⟨404, d⟩) m) dm =
        { success := false, data := none,
          error := some "Recurso não encontrado na API. Verifique o endpoint ou parâmetros.",
          status := 404 }) ∧
    (∀ (d : Option AxiosResponseData) (m : String),
      handleApiError (.axiosErr (some ⟨429, d⟩) m) dm =
        { success := false, data := none,
          error := some "Limite de requisições excedido na API. Tente novamente mais tarde.",
          status := 429 }) ∧
    (∀ (st : Int) (m om : String) (omsg : Option String), st ≠ 404 → st ≠ 429 →
      om.isEmpty = false →
      (handleApiError (.axiosErr (some ⟨st, some ⟨some om, omsg⟩⟩) m) dm).error = some om) ∧
    (∀ (st : Int) (m s : String), st ≠ 404 → st ≠ 429 →
      (handleApiError (.axiosErr (some ⟨st, some ⟨none, some s⟩⟩) m) dm).error = some s) ∧
    (∀ (st : Int) (m : String), st ≠ 404 → st ≠ 429 →
      (handleApiError (.axiosErr (some ⟨st, some ⟨none, none⟩⟩) m) dm).error =
        some (if m.isEmpty then dm else m)) ∧
    (∀ (st : Int) (m : String), st ≠ 404 → st ≠ 429 →
      (handleApiError (.axiosErr (some ⟨st, none⟩) m) dm).error =
        some (if m.isEmpty then dm else m)) ∧
    (∀ m : String, handleApiError (.axiosErr none m) dm =
      { success := false, data := none, error := some (if m.isEmpty then dm else m),
        status := 500 }) ∧
    (∀ m : String, handleApiError (.jsError m) dm =
      { success := false, data := none, error := some m, status := 500 }) ∧
    (handleApiError .unknownErr dm =
      { success := false, data := none, error := some dm, status := 500 }) ∧
    (∀ (d : Option AxiosResponseData) (m : String),
      (handleApiError (.axiosErr (some ⟨0, d⟩) m) dm).status = 500) ∧
    (∀ (st : Int) (m s : String), st ≠ 404 → st ≠ 429 →
      (handleApiError (.axiosErr (some ⟨st, some ⟨some "", some s⟩⟩) m) dm).error = some s) ∧
    (∀ (st : Int) (m : String), st ≠ 404 → st ≠ 429 →
      (handleApiError (.axiosErr (some ⟨st, some ⟨some "", none⟩⟩) m) dm).error =
        some (if m.isEmpty then dm else m)) := by
  refine ⟨?_, ?_, ?_, ?_, ?_, ?_, ?_, ?_, ?_, ?_, rfl, ?_, ?_, ?_⟩
  · intro e
    cases e <;> simp [handleApiError]
  · intro st d m h0
    simp [handleApiError, h0]
  · intro d m
    simp [handleApiError]
  · intro d m
    simp [handleApiError]
  · intro st m om omsg h404 h429 hom
    by_cases h0 : st = 0
    · subst h0
      simp [handleApiError, hom]
    · simp [handleApiError, hom, h0, h404, h429]
  · intro st m s h404 h429
    by_cases h0 : st = 0
    · subst h0
      simp [handleApiError]
    · simp [handleApiError, h0, h404, h429]
  · intro st m h404 h429
    by_cases h0 : st = 0
    · subst h0
      simp [handleApiError]
    · simp [handleApiError, h0, h404, h429]
  · intro st m h404 h429
    by_cases h0 : st = 0
    · subst h0
      simp [handleApiError]
    · simp [handleApiError, h0, h404, h429]
  · intro m
    simp [handleApiError]
  · intro m
    simp [handleApiError]
  · intro d m
    simp [handleApiError]
  · intro st m s h404 h429
    have hemp : ("" : String).isEmpty = true := rfl
    by_cases h0 : st = 0
    · subst h0
      simp [handleApiError, hemp]
    · simp [handleApiError, hemp, h0, h404, h429]
  · intro st m h404 h429
    have hemp : ("" : String).isEmpty = true := rfl
    by_cases h0 : st = 0
    · subst h0
      simp [handleApiError, hemp]
    · simp [handleApiError, hemp, h0, h404, h429]

/-- Witness for C7 (amended): a 404 yields the fixed message, a 503
with an error field in the body surfaces that field with status 503,
and a 503 whose error field is present but empty surfaces the message
field instead. -/
theorem C7_classifier_witness :
    handleApiError (.axiosErr (some ⟨404, none⟩) "x") "padrão" =
      { success := false, data := none,
        error := some "Recurso não encontrado na API. Verifique o endpoint ou parâmetros.",
        status := 404 } ∧
    (handleApiError (.axiosErr (some ⟨503, some ⟨some "indisponível", none⟩⟩) "x") "padrão").error
      = some "indisponível" ∧
    (handleApiError (.axiosErr (some ⟨503, some ⟨some "indisponível", none⟩⟩) "x") "padrão").status
      = 503 ∧
    (handleApiError (.axiosErr (some ⟨503, some ⟨some "", some "corpo"⟩⟩) "x") "padrão").error
      = some "corpo" :=
  ⟨(C7_classifier "padrão").2.2.1 none "x",
   (C7_classifier "padrão").2.2.2.2.1 503 "x" "indisponível" none (by decide) (by decide)
     (by decide),
   (C7_classifier "padrão").2.1 503 (some ⟨some "indisponível", none⟩) "x" (by decide),
   (C7_classifier "padrão").2.2.2.2.2.2.2.2.2.2.2.2.1 503 "x" "corpo" (by decide) (by decide)⟩

/-- C10: every run of the fetch pipeline returns a success envelope whose
payload is the filtered aggregate with `totalRegistros` equal to the
filtered length, `totalPaginas = 1`, `numeroPagina = 1`,
`paginasRestantes = 0`, `empty` agreeing with emptiness of the list,
status 200 and `success = true`, regardless of what upstream reported. -/
theorem C10_success_envelope (filters : PncpApiFilters) (upstream : Upstream) :
    (buscarLicitacoesPNCP filters upstream).success = true ∧
    (buscarLicitacoesPNCP filters upstream).status = 200 ∧
    (buscarLicitacoesPNCP filters upstream).error = none ∧
    ∃ env, (buscarLicitacoesPNCP filters upstream).data = some env ∧
      env.data = ((modalidadesCodigos filters.modalidades).flatMap
        (fun c => fetchModalidade upstream (buildBaseParams filters) c)).filter
          (finalFilter filters) ∧
      env.totalRegistros = (env.data.length : Int) ∧
      env.totalPaginas = 1 ∧
      env.numeroPagina = 1 ∧
      env.paginasRestantes = 0 ∧
      env.empty = env.data.isEmpty := by
  refine ⟨rfl, rfl, rfl, _, rfl, rfl, rfl, rfl, rfl, rfl, ?_⟩
  exact decide_length_eq_zero_eq_isEmpty _

/-- C1: when the page-1 request of some modality code throws, that
modality contributes no records, but the pipeline still returns a
`success = true`, status-200 envelope whose payload is the filtered
concatenation of every resolved modality's fetch result — the failure is
contained to its own modality. -/
theorem C1_modality_failure_isolated (filters : PncpApiFilters) (upstream : Upstream)
    (code : Int) (e : ApiErrorInput)
    (hfail : upstream (mkRequestParams (buildBaseParams filters) code 1) = .error e) :
    fetchModalidade upstream (buildBaseParams filters) code = [] ∧
    (buscarLicitacoesPNCP filters upstream).success = true ∧
    (buscarLicitacoesPNCP filters upstream).status = 200 ∧
    ∀ env, (buscarLicitacoesPNCP filters upstream).data = some env →
      env.data = ((modalidadesCodigos filters.modalidades).flatMap
        (fun c => fetchModalidade upstream (buildBaseParams filters) c)).filter
          (finalFilter filters) := by
  refine ⟨?_, rfl, rfl, ?_⟩
  · simp [fetchModalidade, hfail]
  · intro env henv
    simp only [buscarLicitacoesPNCP, Option.some.injEq] at henv
    subst henv
    rfl

/-- Witness for C1: modality 3's first page throws while every other
modality returns one matching record; modality 3 contributes nothing and
the call still succeeds. -/
theorem C1_modality_failure_isolated_witness :
    fetchModalidade
      (fun p => if p.codigoModalidadeContratacao = 3 then Except.error ApiErrorInput.unknownErr
        else Except.ok ⟨some [⟨some "serviço de limpeza urbana"⟩], 1, some 1⟩)
      (buildBaseParams ⟨["limpeza"], none, none, none, [], none, none, []⟩) 3 = [] ∧
    (buscarLicitacoesPNCP ⟨["limpeza"], none, none, none, [], none, none, []⟩
      (fun p => if p.codigoModalidadeContratacao = 3 then Except.error ApiErrorInput.unknownErr
        else Except.ok ⟨some [⟨some "serviço de limpeza urbana"⟩], 1, some 1⟩)).success = true :=
  ⟨(C1_modality_failure_isolated ⟨["limpeza"], none, none, none, [], none, none, []⟩
      (fun p => if p.codigoModalidadeContratacao = 3 then Except.error ApiErrorInput.unknownErr
        else Except.ok ⟨some [⟨some "serviço de limpeza urbana"⟩], 1, some 1⟩)
      3 ApiErrorInput.unknownErr rfl).1,
   (C1_modality_failure_isolated ⟨["limpeza"], none, none, none, [], none, none, []⟩
      (fun p => if p.codigoModalidadeContratacao = 3 then Except.error ApiErrorInput.unknownErr
        else Except.ok ⟨some [⟨some "serviço de limpeza urbana"⟩], 1, some 1⟩)
      3 ApiErrorInput.unknownErr rfl).2.1⟩

/-- C8: the per-modality loop is a total function whose result depends
only on the oracle's answers at page 1 and at pages 2..N, where N is the
page count that page 1 reported — it never consults a page beyond that
budget; and a first page whose `data` field is missing or not an array
silently ends the modality with no records and no error. -/
theorem C8_pagination_budget (base : BaseParams) (code : Int) (u u' : Upstream) :
    ((u (mkRequestParams base code 1) = u' (mkRequestParams base code 1)) →
     (∀ p : Int, 2 ≤ p → p ≤ reportedPages (u (mkRequestParams base code 1)) →
       u (mkRequestParams base code p) = u' (mkRequestParams base code p)) →
     fetchModalidade u base code = fetchModalidade u' base code) ∧
    (∀ (tr : Int) (tp : Option Int),
      u (mkRequestParams base code 1) = .ok ⟨none, tr, tp⟩ →
      fetchModalidade u base code = []) := by
  constructor
  · intro h1 hrest
    unfold fetchModalidade
    rw [h1]
    cases hu : u' (mkRequestParams base code 1) with
    | error e => rfl
    | ok response =>
      show (match response.data with
        | none => []
        | some recs =>
          if response.totalPaginas.getD 0 > 0 then
            fetchLoop u base code (response.totalPaginas.getD 0) 2 recs
          else recs) = (match response.data with
        | none => []
        | some recs =>
          if response.totalPaginas.getD 0 > 0 then
            fetchLoop u' base code (response.totalPaginas.getD 0) 2 recs
          else recs)
      cases hd : response.data with
      | none => rfl
      | some recs =>
        by_cases htp : response.totalPaginas.getD 0 > 0
        · simp only [if_pos htp]
          refine fetchLoop_congr u u' base code (response.totalPaginas.getD 0)
            ((response.totalPaginas.getD 0 + 1 - 2).toNat) 2 recs rfl ?_
          intro q hq1 hq2
          refine hrest q hq1 ?_
          rw [h1, hu]
          simpa [reportedPages, hd, htp] using hq2
        · simp [htp]
  · intro tr tp h
    simp [fetchModalidade, h]

/-- Witness for C8: page 1 reports 2 pages; an oracle that fails from
page 3 on gives the same result as one that never fails, because page 3
is never requested. -/
theorem C8_pagination_budget_witness :
    fetchModalidade
      (fun p => if p.pagina ≤ 2 then Except.ok ⟨some [], 0, some 2⟩
        else Except.error ApiErrorInput.unknownErr)
      (buildBaseParams ⟨[], none, none, none, [], none, none, []⟩) 7 =
    fetchModalidade
      (fun _ => Except.ok ⟨some [], 0, some 2⟩)
      (buildBaseParams ⟨[], none, none, none, [], none, none, []⟩) 7 :=
  (C8_pagination_budget (buildBaseParams ⟨[], none, none, none, [], none, none, []⟩) 7
      (fun p => if p.pagina ≤ 2 then Except.ok ⟨some [], 0, some 2⟩
        else Except.error ApiErrorInput.unknownErr)
      (fun _ => Except.ok ⟨some [], 0, some 2⟩)).1
    rfl
    (by
      intro p h2 hp
      have hrp : p ≤ 2 := by
        simpa [reportedPages] using hp
      have hp2 : p = 2 := le_antisymm hrp h2
      subst hp2
      rfl)
